import Mathlib

/-
Verification of the canonical authorization-request core of `pauth`
(`src/requests/__init__.py`) against its specification.

Embedding conventions:
  * Python dicts (`headers`, `parameters`) become association lists
    `List (String × String)`; dict key membership is `containsParam` and
    dict lookup / `.get` is `lookupParam` (first match in stored order).
  * Raising an exception becomes `Except.error`; normal return is `Except.ok`.
  * The external client registry (consulted by `Client.is_registered` /
    `Client.is_authorized`, which live outside `src/`) is an abstract pair
    of boolean oracles.
-/

namespace Pauth

/-- Python's `str.lower()`: lowercase every character of the string. -/
def strLower (s : String) : String := ⟨s.data.map Char.toLower⟩

/-- First-match lookup of key `k` in an association list, modelling Python
dict indexing `d[k]` and `d.get(k)` (returning `none` when absent). -/
def lookupParam (ps : List (String × String)) (k : String) : Option String :=
  (ps.find? (fun p => p.1 == k)).map (fun p => p.2)

/-- Key membership in an association list, modelling Python `k in d`. -/
def containsParam (ps : List (String × String)) (k : String) : Bool :=
  ps.any (fun p => p.1 == k)

/-- Client credentials: an identifier plus an optional secret, as built in
`Request.__init__` from `parameters['client_id']` and
`parameters.get('client_secret')`. -/
structure ClientCredentials where
  identifier : String
  secret : Option String
deriving DecidableEq

/-- Modelled from the spec: the external client registry contract (spec §4.2,
§6), which `pauth.clients.Client` (not under `src/`) consults:
`is_registered() -> bool` and `is_authorized() -> bool`, looked up by the
client's credentials. -/
structure Registry where
  registered : ClientCredentials → Bool
  authorized : ClientCredentials → Bool

/-- Modelled from the spec: `pauth.clients.Client` (not under `src/`) wraps
the credentials it was constructed from (spec §3); its status methods
delegate to the external registry. -/
structure Client where
  credentials : ClientCredentials
deriving DecidableEq

def Client.is_registered (reg : Registry) (c : Client) : Bool :=
  reg.registered c.credentials

def Client.is_authorized (reg : Registry) (c : Client) : Bool :=
  reg.authorized c.credentials

/-- Modelled from the spec: the error taxonomy (spec §7).  The error classes
live in `pauth.requests.errors` and `pauth.clients.errors` (not under
`src/`); constructor payloads follow their call sites in
`src/requests/__init__.py`: `InvalidAuthorizationRequestError` is raised
with a message string, `UnknownClientError` with `self.client` (possibly
`None`), `UnauthorizedClientError` with the client. -/
inductive PauthError where
  | invalidAuthorizationRequest (message : String)
  | unknownClient (client : Option Client)
  | unauthorizedClient (client : Client)
deriving DecidableEq

/-- The canonical request: the attributes `Request.__init__` assigns.
The per-variant `required_parameters` class attribute is passed separately
to the operations that read it. -/
structure Request where
  method : String
  headers : List (String × String)
  parameters : List (String × String)
  client : Option Client
  response_type : Option String
  state : Option String
deriving DecidableEq

/-- Lines 38–43 of `Request.__init__`: if `'client_id' in self.parameters`,
build `ClientCredentials(parameters['client_id'], parameters.get('client_secret'))`
and wrap it in a `Client`; otherwise the client is `None`.  For a dict,
`'client_id' in parameters` holds exactly when the lookup yields a value,
so we branch on the lookup. -/
def extractClient (parameters : List (String × String)) : Option Client :=
  match lookupParam parameters "client_id" with
  | some cid =>
      some { credentials := { identifier := cid,
                              secret := lookupParam parameters "client_secret" } }
  | none => none

/-- `Request._has_required_parameters`, verbatim from the source:
`all(p in self.required_parameters for p in self.parameters)` — every
*supplied* parameter key must be a member of `required_parameters`.
(The docstring claims the opposite direction; see the proofs below.) -/
def Request._has_required_parameters (required_parameters : List String)
    (parameters : List (String × String)) : Bool :=
  parameters.all (fun p => required_parameters.contains p.1)

/-- `Request.validate`: raise `InvalidAuthorizationRequestError` when the
`_has_required_parameters` check fails; then `UnknownClientError` when the
client is `None` or not registered; then `UnauthorizedClientError` when the
client is not authorized; otherwise return normally. -/
def Request.validate (r : Request) (required_parameters : List String)
    (reg : Registry) : Except PauthError Unit :=
  if ¬ Request._has_required_parameters required_parameters r.parameters then
    Except.error (PauthError.invalidAuthorizationRequest
      "Some required request parameters are missing.")
  else
    match r.client with
    | none => Except.error (PauthError.unknownClient none)
    | some c =>
      if ¬ Client.is_registered reg c then
        Except.error (PauthError.unknownClient (some c))
      else if ¬ Client.is_authorized reg c then
        Except.error (PauthError.unauthorizedClient c)
      else
        Except.ok ()

/-- `Request.__init__` (lines 22–48): assign `method`, `headers`,
`parameters` (defaulting to empty mappings), derive `client`,
`response_type` and `state`, then run `validate`, which may raise.  On
success the constructed object is returned. -/
def Request.init (required_parameters : List String) (reg : Registry)
    (method : String) (headers parameters : List (String × String)) :
    Except PauthError Request :=
  let r : Request :=
    { method := method
      headers := headers
      parameters := parameters
      client := extractClient parameters
      response_type := lookupParam parameters "response_type"
      state := lookupParam parameters "state" }
  (Request.validate r required_parameters reg).map (fun _ => r)

/-- The registry calls `validate` can make, in source order. -/
inductive RegistryCall where
  | isRegistered
  | isAuthorized
deriving DecidableEq

/-- `Request.validate` instrumented to record which registry oracles the
source's `if`/`elif` chain consults, in order.  Python's `elif` only
evaluates its condition when every earlier branch condition was false, so
`is_registered` is consulted only after the parameter check passed and the
client is non-`None`, and `is_authorized` only after `is_registered`
returned true.  The first component agrees with `Request.validate`
(proved below). -/
def Request.validateTrace (r : Request) (required_parameters : List String)
    (reg : Registry) : Except PauthError Unit × List RegistryCall :=
  if ¬ Request._has_required_parameters required_parameters r.parameters then
    (Except.error (PauthError.invalidAuthorizationRequest
      "Some required request parameters are missing."), [])
  else
    match r.client with
    | none => (Except.error (PauthError.unknownClient none), [])
    | some c =>
      if ¬ Client.is_registered reg c then
        (Except.error (PauthError.unknownClient (some c)),
         [RegistryCall.isRegistered])
      else if ¬ Client.is_authorized reg c then
        (Except.error (PauthError.unauthorizedClient c),
         [RegistryCall.isRegistered, RegistryCall.isAuthorized])
      else
        (Except.ok (),
         [RegistryCall.isRegistered, RegistryCall.isAuthorized])

/-- `Request.validate` in state-passing form: the method body contains no
attribute assignment (it only reads `self` and either raises or falls
through), so the post-state on normal return is the receiver unchanged. -/
def Request.validateM (r : Request) (required_parameters : List String)
    (reg : Registry) : Except PauthError Request :=
  (Request.validate r required_parameters reg).map (fun _ => r)

/-- `Request.has_header`: `any(header.lower() == h.lower() for h in self.headers)`
— iteration over a dict yields its keys. -/
def Request.has_header (r : Request) (header : String) : Bool :=
  r.headers.any (fun h => strLower header == strLower h.1)

/-- `Request.get_header`: first value whose key matches `header`
case-insensitively, in stored iteration order, else `None`. -/
def Request.get_header (r : Request) (header : String) : Option String :=
  (r.headers.find? (fun h => strLower h.1 == strLower header)).map (fun h => h.2)

/-- A registry that registers and authorizes every client. -/
def regAll : Registry := ⟨fun _ => true, fun _ => true⟩


/-! ### Helper lemmas -/

/-- Dict-membership and dict-lookup agree: the lookup yields nothing exactly
when the key is absent. -/
lemma lookupParam_eq_none_iff (ps : List (String × String)) (k : String) :
    lookupParam ps k = none ↔ containsParam ps k = false := by
  simp [lookupParam, containsParam, List.find?_eq_none, List.any_eq_true]

/-- The scan of `has_header` succeeds exactly when the scan of `get_header`
finds an entry. -/
lemma any_lower_eq_find_isSome (l : List (String × String)) (h : String) :
    (l.any (fun p => strLower h == strLower p.1))
      = (l.find? (fun p => strLower p.1 == strLower h)).isSome := by
  induction l with
  | nil => rfl
  | cons x xs ih =>
    by_cases hx : strLower x.1 = strLower h
    · simp [List.any_cons, List.find?_cons_of_pos, hx, beq_iff_eq]
    · have h1 : (strLower x.1 == strLower h) = false := beq_eq_false_iff_ne.mpr hx
      have h2 : (strLower h == strLower x.1) = false :=
        beq_eq_false_iff_ne.mpr (Ne.symm hx)
      simp [List.any_cons, List.find?_cons_of_neg, h1, h2, ih]

/-- A linear scan returns the first case-insensitive match when everything
before it fails to match. -/
lemma find?_append_first (pre post : List (String × String)) (k v hd : String)
    (hpre : ∀ p ∈ pre, strLower p.1 ≠ strLower hd) (hk : strLower k = strLower hd) :
    List.find? (fun h => strLower h.1 == strLower hd) (pre ++ (k, v) :: post)
      = some (k, v) := by
  induction pre with
  | nil => simp [List.find?_cons_of_pos, beq_iff_eq, hk]
  | cons x xs ih =>
    have hx : (strLower x.1 == strLower hd) = false :=
      beq_eq_false_iff_ne.mpr (hpre x (by simp))
    simp only [List.cons_append, List.find?_cons_of_neg, hx, Bool.false_eq_true,
      not_false_eq_true]
    exact ih (fun p hp => hpre p (by simp [hp]))

/-! ### Claims -/

/-- C1: the claim says that a parameter mapping missing a required name is
rejected with `InvalidAuthorizationRequestError` naming the missing names
(Scenario C: parameters `{client_id: "abc"}` under required
`{client_id, response_type}`).  The code does the opposite: its
`_has_required_parameters` accepts any mapping whose keys are all members of
`required_parameters`, so Scenario C passes the parameter check and — with a
registry that registers and authorizes `"abc"` — construction succeeds
outright, raising no error at all. -/
theorem scenarioC_missing_required_parameter_not_rejected :
    Request.init ["client_id", "response_type"] regAll "GET" [] [("client_id", "abc")]
      = Except.ok { method := "GET", headers := [],
                    parameters := [("client_id", "abc")],
                    client := some ⟨⟨"abc", none⟩⟩,
                    response_type := none, state := none } := rfl

/-- C2: the claim says Scenario A (parameters `client_id`, `client_secret`,
`response_type`, `state`; required `{client_id, response_type}`; registry
accepting `"abc"`) constructs successfully with `response_type = "code"` and
`state = "xyz"`.  The code instead rejects it: `client_secret` and `state`
are not members of `required_parameters`, so the inverted
`_has_required_parameters` check fails and
`InvalidAuthorizationRequestError` is raised. -/
theorem scenarioA_extra_parameters_rejected :
    Request.init ["client_id", "response_type"] regAll "GET" []
      [("client_id", "abc"), ("client_secret", "s3cr3t"),
       ("response_type", "code"), ("state", "xyz")]
      = Except.error (PauthError.invalidAuthorizationRequest
          "Some required request parameters are missing.") := rfl

/-- C3 counterexample: parameters `{response_type: "code"}` (no `client_id`)
under the base variant (empty `required_parameters`) raises
`InvalidAuthorizationRequestError`, not the `UnknownClientError` the claim
requires for every variant. -/
theorem no_client_id_base_variant_raises_invalid_request :
    Request.init [] regAll "GET" [] [("response_type", "code")]
      = Except.error (PauthError.invalidAuthorizationRequest
          "Some required request parameters are missing.")
    ∧ Request.init [] regAll "GET" [] [("response_type", "code")]
      ≠ Except.error (PauthError.unknownClient none) :=
  ⟨rfl, fun h => PauthError.noConfusion (Except.error.inj h)⟩

/-- C3 amended: for every parameter mapping lacking `client_id` that passes
the code's `_has_required_parameters` check (every supplied key is a member
of the variant's `required_parameters`), construction fails with
`UnknownClientError` carrying the null client. -/
theorem no_client_id_raises_unknown_client (rp : List String) (reg : Registry)
    (method : String) (headers params : List (String × String))
    (hno : containsParam params "client_id" = false)
    (hreq : Request._has_required_parameters rp params = true) :
    Request.init rp reg method headers params
      = Except.error (PauthError.unknownClient none) := by
  have hcl : extractClient params = none := by
    simp [extractClient, (lookupParam_eq_none_iff params "client_id").mpr hno]
  simp [Request.init, Request.validate, hreq, hcl, Except.map]

/-- C3 amended, witness: Scenario B under a variant requiring
`response_type`. -/
theorem no_client_id_raises_unknown_client_witness :
    Request.init ["response_type"] regAll "GET" [] [("response_type", "code")]
      = Except.error (PauthError.unknownClient none) :=
  no_client_id_raises_unknown_client ["response_type"] regAll "GET" []
    [("response_type", "code")] (by decide) (by decide)

/-- C4: under the base variant (empty `required_parameters`), construction
always raises: it never returns a request; a non-empty parameter mapping
fails the (inverted) required-parameter check with
`InvalidAuthorizationRequestError`, and an empty mapping yields a null
client and `UnknownClientError`. -/
theorem base_variant_never_validates (reg : Registry) (method : String)
    (headers params : List (String × String)) :
    (∀ r, Request.init [] reg method headers params ≠ Except.ok r)
    ∧ (params ≠ [] → Request.init [] reg method headers params
        = Except.error (PauthError.invalidAuthorizationRequest
            "Some required request parameters are missing."))
    ∧ (params = [] → Request.init [] reg method headers params
        = Except.error (PauthError.unknownClient none)) := by
  rcases params with _ | ⟨p, ps⟩
  · refine ⟨?_, ?_, ?_⟩
    · intro r
      simp [Request.init, Request.validate, Request._has_required_parameters,
        extractClient, lookupParam, Except.map]
    · intro h; cases h rfl
    · intro _
      simp [Request.init, Request.validate, Request._has_required_parameters,
        extractClient, lookupParam, Except.map]
  · have hfail : Request._has_required_parameters [] (p :: ps) = false := by
      simp [Request._has_required_parameters]
    refine ⟨?_, ?_, ?_⟩
    · intro r
      simp [Request.init, Request.validate, hfail, Except.map]
    · intro _
      simp [Request.init, Request.validate, hfail, Except.map]
    · intro h; cases h

/-- C4 witness: the two error branches of the base variant at concrete
inputs. -/
theorem base_variant_never_validates_witness :
    Request.init [] regAll "GET" [] [("response_type", "code")]
      = Except.error (PauthError.invalidAuthorizationRequest
          "Some required request parameters are missing.")
    ∧ Request.init [] regAll "GET" [] []
      = Except.error (PauthError.unknownClient none) :=
  ⟨(base_variant_never_validates regAll "GET" [] [("response_type", "code")]).2.1
      (by decide),
   (base_variant_never_validates regAll "GET" [] []).2.2 rfl⟩

/-- C5: when the required-parameter check passes and a client was extracted,
an unregistered client yields `UnknownClientError` while a registered but
unauthorized client yields `UnauthorizedClientError` — the two errors are
never conflated. -/
theorem unregistered_vs_unauthorized (rp : List String) (reg : Registry)
    (method : String) (headers params : List (String × String)) (c : Client)
    (hreq : Request._has_required_parameters rp params = true)
    (hc : extractClient params = some c) :
    (reg.registered c.credentials = false →
       Request.init rp reg method headers params
         = Except.error (PauthError.unknownClient (some c)))
    ∧ (reg.registered c.credentials = true → reg.authorized c.credentials = false →
       Request.init rp reg method headers params
         = Except.error (PauthError.unauthorizedClient c)) := by
  constructor
  · intro h1
    simp [Request.init, Request.validate, hreq, hc, Client.is_registered, h1,
      Except.map]
  · intro h1 h2
    simp [Request.init, Request.validate, hreq, hc, Client.is_registered,
      Client.is_authorized, h1, h2, Except.map]

/-- C5 witness: one registry that knows no client and one that registers but
does not authorize, at the same concrete request. -/
theorem unregistered_vs_unauthorized_witness :
    Request.init ["client_id"] ⟨fun _ => false, fun _ => false⟩ "GET" []
      [("client_id", "abc")]
      = Except.error (PauthError.unknownClient (some ⟨⟨"abc", none⟩⟩))
    ∧ Request.init ["client_id"] ⟨fun _ => true, fun _ => false⟩ "GET" []
      [("client_id", "abc")]
      = Except.error (PauthError.unauthorizedClient ⟨⟨"abc", none⟩⟩) :=
  ⟨(unregistered_vs_unauthorized ["client_id"] ⟨fun _ => false, fun _ => false⟩
      "GET" [] [("client_id", "abc")] ⟨⟨"abc", none⟩⟩ (by decide) rfl).1 rfl,
   (unregistered_vs_unauthorized ["client_id"] ⟨fun _ => true, fun _ => false⟩
      "GET" [] [("client_id", "abc")] ⟨⟨"abc", none⟩⟩ (by decide) rfl).2 rfl rfl⟩

/-- C6: the instrumented `validateTrace` agrees with `validate`, and the
source's `if`/`elif` chain short-circuits: no registry call is made when the
required-parameter check fails or when the client is null; only
`is_registered` is consulted when it returns false; `is_authorized` is
consulted (after `is_registered`) only when `is_registered` returned
true. -/
theorem validate_check_order_short_circuits (rp : List String) (reg : Registry)
    (r : Request) :
    (Request.validateTrace r rp reg).1 = Request.validate r rp reg
    ∧ (Request._has_required_parameters rp r.parameters = false →
        (Request.validateTrace r rp reg).2 = [])
    ∧ (r.client = none → (Request.validateTrace r rp reg).2 = [])
    ∧ (∀ c, r.client = some c →
        Request._has_required_parameters rp r.parameters = true →
        Client.is_registered reg c = false →
        (Request.validateTrace r rp reg).2 = [RegistryCall.isRegistered])
    ∧ (∀ c, r.client = some c →
        Request._has_required_parameters rp r.parameters = true →
        Client.is_registered reg c = true →
        (Request.validateTrace r rp reg).2
          = [RegistryCall.isRegistered, RegistryCall.isAuthorized]) := by
  rcases r with ⟨m, hs, ps, cl, rt, st⟩
  refine ⟨?_, ?_, ?_, ?_, ?_⟩
  · by_cases h : Request._has_required_parameters rp ps
    · cases cl with
      | none => simp [Request.validateTrace, Request.validate, h]
      | some c =>
        by_cases h1 : Client.is_registered reg c
        · by_cases h2 : Client.is_authorized reg c <;>
            simp [Request.validateTrace, Request.validate, h, h1, h2]
        · simp [Request.validateTrace, Request.validate, h, h1]
    · simp [Request.validateTrace, Request.validate, h]
  · intro h
    simp [Request.validateTrace, h]
  · intro h
    by_cases hp : Request._has_required_parameters rp ps
    · simp at h
      simp [Request.validateTrace, hp, h]
    · simp [Request.validateTrace, hp]
  · intro c hc hp h1
    simp at hc
    simp [Request.validateTrace, hp, hc, h1]
  · intro c hc hp h1
    simp at hc
    by_cases h2 : Client.is_authorized reg c <;>
      simp [Request.validateTrace, hp, hc, h1, h2]

/-- C6 witness: a request failing the required-parameter check makes no
registry call. -/
theorem validate_check_order_witness :
    (Request.validateTrace ⟨"GET", [], [("x", "1")], none, none, none⟩ [] regAll).2
      = [] :=
  (validate_check_order_short_circuits [] regAll
    ⟨"GET", [], [("x", "1")], none, none, none⟩).2.1 (by decide)

/-- C7: for every header mapping and query name, `has_header` is true
exactly when `get_header` returns a value; both compare names
case-insensitively via the same lowering. -/
theorem has_header_iff_get_header_isSome (r : Request) (h : String) :
    r.has_header h = true ↔ (r.get_header h).isSome = true := by
  simp [Request.has_header, Request.get_header, any_lower_eq_find_isSome]

/-- C8: with duplicate case-insensitive keys, `get_header` returns the value
of the first matching entry in stored iteration order. -/
theorem get_header_first_match_wins (r : Request)
    (pre post : List (String × String)) (k v hd : String)
    (hh : r.headers = pre ++ (k, v) :: post)
    (hpre : ∀ p ∈ pre, strLower p.1 ≠ strLower hd)
    (hk : strLower k = strLower hd) :
    r.get_header hd = some v := by
  unfold Request.get_header
  rw [hh, find?_append_first pre post k v hd hpre hk]
  rfl

/-- C8 witness: two case-insensitive duplicates of `Content-Type`; the first
stored value wins. -/
theorem get_header_first_match_wins_witness :
    Request.get_header
      ⟨"GET", [("X-Frame", "deny"), ("CONTENT-TYPE", "a"), ("Content-Type", "b")],
       [], none, none, none⟩ "content-type" = some "a" :=
  get_header_first_match_wins _ [("X-Frame", "deny")] [("Content-Type", "b")]
    "CONTENT-TYPE" "a" "content-type" rfl (by decide) (by decide)

/-- C9: `validate` is idempotent and writes nothing: whenever the
state-passing form returns normally, the post-state equals the receiver in
every attribute, and running it again on that state returns normally with
the same state. -/
theorem validate_idempotent_no_writes (r : Request) (rp : List String)
    (reg : Registry) (r2 : Request)
    (hv : Request.validateM r rp reg = Except.ok r2) :
    r2 = r ∧ Request.validateM r2 rp reg = Except.ok r2
    ∧ r2.method = r.method ∧ r2.headers = r.headers
    ∧ r2.parameters = r.parameters ∧ r2.client = r.client
    ∧ r2.response_type = r.response_type ∧ r2.state = r.state := by
  have hr : r2 = r := by
    unfold Request.validateM at hv
    cases hval : Request.validate r rp reg with
    | ok u => rw [hval] at hv; simp [Except.map] at hv; exact hv.symm
    | error e => rw [hval] at hv; simp [Except.map] at hv
  subst hr
  exact ⟨rfl, hv, rfl, rfl, rfl, rfl, rfl, rfl⟩

/-- C9 witness: a concrete request that validates; re-validation returns it
unchanged. -/
theorem validate_idempotent_witness :
    Request.validateM
      ⟨"GET", [], [("client_id", "abc")], some ⟨⟨"abc", none⟩⟩, none, none⟩
      ["client_id"] regAll
      = Except.ok
          ⟨"GET", [], [("client_id", "abc")], some ⟨⟨"abc", none⟩⟩, none, none⟩ :=
  (validate_idempotent_no_writes
    ⟨"GET", [], [("client_id", "abc")], some ⟨⟨"abc", none⟩⟩, none, none⟩
    ["client_id"] regAll
    ⟨"GET", [], [("client_id", "abc")], some ⟨⟨"abc", none⟩⟩, none, none⟩
    rfl).2.1

/-- C10: client extraction is decided solely by the presence of the
`client_id` key: whatever value it maps to (including the empty string), a
client is built whose identifier is that value verbatim and whose secret is
the `client_secret` lookup. -/
theorem extractClient_by_presence_not_value (params : List (String × String))
    (v : String) (hv : lookupParam params "client_id" = some v) :
    extractClient params
      = some { credentials := { identifier := v,
                                secret := lookupParam params "client_secret" } } := by
  simp [extractClient, hv]

/-- C10 witness: an empty-string `client_id` still yields a client with that
identifier verbatim. -/
theorem extractClient_by_presence_witness :
    extractClient [("client_id", ""), ("client_secret", "s3cr3t")]
      = some ⟨⟨"", some "s3cr3t"⟩⟩ :=
  extractClient_by_presence_not_value
    [("client_id", ""), ("client_secret", "s3cr3t")] "" rfl

end Pauth
